import Mathlib

/-!
Shallow embedding of the map-router repository (src/api/algorithm.py,
src/api/index.py) and verification of its specification claims.

Python exceptions are modelled with `Except PyErr`; Python dictionaries with
string keys are modelled as association lists; the external Google Distance
Matrix HTTP API is modelled as a pure function from the request (origins,
destinations) to a well-typed response of the shape the code reads
(`status`, `rows[i].elements[0].distance.text / duration.text`); the external
OR-Tools routing solver is modelled only up to the point the code hands
control to it (`SolveOutcome.reachedRoutingSolver`), since the code under
verification never reaches that point.
-/

set_option autoImplicit false

namespace MapRouter

/-- Python exception values raised by the embedded code. -/
inductive PyErr where
  | valueError (msg : String)
  | typeError (msg : String)
  | keyError (key : String)
  | indexError
  | exception (msg : String)
deriving DecidableEq, Repr

/-- Python runtime values stored in `VRPSolver.data` and passed to `VRPSolver`. -/
inductive PyVal where
  | int (n : Int)
  | str (s : String)
  | noneV
  | list (xs : List PyVal)

/-- Python `str(e)` for the exception values above (`str(KeyError(k))` shows the
key quoted). -/
def pyStr : PyErr → String
  | .valueError m => m
  | .typeError m => m
  | .keyError k => "\x27" ++ k ++ "\x27"
  | .indexError => "list index out of range"
  | .exception m => m

/-- Python `repr` of a list of strings, as an f-string renders `self.destination`. -/
def pyReprStrList (xs : List String) : String :=
  "[" ++ String.intercalate ", " (xs.map (fun s => "\x27" ++ s ++ "\x27")) ++ "]"

/-- Person, from `algorithm.py` lines 8-24. `capacity` is `Option Nat`
(`None` or an integer). -/
structure Person where
  name : String
  address : String
  capacity : Option Nat
  is_driving : Bool
  is_destination : Bool
deriving DecidableEq, Repr

/-- Python truthiness of the `capacity` attribute (`None` and `0` are falsy). -/
def truthy : Option Nat → Bool
  | none => false
  | some 0 => false
  | some _ => true

/-- Person constructor, `algorithm.py` lines 9-24: raises `ValueError` when a
non-driving person has a truthy capacity. -/
def Person.init (name address : String) (capacity : Option Nat)
    (is_driving is_destination : Bool) : Except PyErr Person :=
  if truthy capacity && !is_driving then
    .error (.valueError "Non-driving persons cannot have a capacity.")
  else
    .ok ⟨name, address, capacity, is_driving, is_destination⟩

/-- RoutePlanner, `algorithm.py` lines 27-41. -/
structure RoutePlanner where
  persons : List Person
  api_key : String

/-- The `destinations` list built in `RoutePlanner.__init__` (line 37). -/
def RoutePlanner.destinations (rp : RoutePlanner) : List String :=
  (rp.persons.filter (fun p => p.is_destination)).map (fun p => p.address)

/-- The `drivers` list built in `RoutePlanner.__init__` (line 38). -/
def RoutePlanner.drivers (rp : RoutePlanner) : List Person :=
  rp.persons.filter (fun p => p.is_driving && !p.is_destination)

/-- The `passengers` list built in `RoutePlanner.__init__` (lines 39-41). -/
def RoutePlanner.passengers (rp : RoutePlanner) : List Person :=
  rp.persons.filter (fun p => !p.is_driving && !p.is_destination)

/-- Sum of the drivers' capacities (a missing capacity counts 0); used to state
the spec's `sum(capacities) < number of stops` condition. -/
def RoutePlanner.capacitySum (rp : RoutePlanner) : Nat :=
  (rp.drivers.map (fun d => d.capacity.getD 0)).sum

/-- One element of a Distance Matrix API response row: the code reads
`element["distance"]["text"]` and `element["duration"]["text"]`. -/
structure ApiElement where
  distanceText : String
  durationText : String
deriving DecidableEq, Repr

/-- One row of a Distance Matrix API response. -/
structure ApiRow where
  elements : List ApiElement
deriving DecidableEq, Repr

/-- A Distance Matrix API response, in the shape `fetch_distance_matrix`
reads (`status`, `rows`). -/
structure ApiResponse where
  status : String
  rows : List ApiRow
deriving DecidableEq, Repr

/-- The external Google Distance Matrix service, modelled as a pure function
from (origins, destinations) to the response. -/
def DistanceApi : Type := List String → List String → ApiResponse

/-- GoogleDistanceMatrixClient state, `algorithm.py` lines 181-193: the mutable
`origins` and `destination` lists (the API-key/HTTP handle is external). -/
structure GoogleDistanceMatrixClient where
  origins : List String
  destination : List String
deriving DecidableEq, Repr

/-- Client state right after `__init__` (lines 182-185): both lists empty. -/
def GoogleDistanceMatrixClient.init : GoogleDistanceMatrixClient :=
  ⟨[], []⟩

/-- `add_origin`, lines 187-189: appends to `self.origins`. -/
def GoogleDistanceMatrixClient.add_origin (c : GoogleDistanceMatrixClient)
    (origin : String) : GoogleDistanceMatrixClient :=
  { c with origins := c.origins ++ [origin] }

/-- `set_destination`, lines 191-193: despite its name, appends to
`self.destination`. -/
def GoogleDistanceMatrixClient.set_destination (c : GoogleDistanceMatrixClient)
    (destination : String) : GoogleDistanceMatrixClient :=
  { c with destination := c.destination ++ [destination] }

/-- The formatted result string built at `algorithm.py` lines 214-216:
`f"From {origin} to {self.destination}: {distance}, {duration}"` where
`self.destination` is a list and renders as its Python repr. -/
def formatResult (origin : String) (destination : List String)
    (e : ApiElement) : String :=
  "From " ++ origin ++ " to " ++ pyReprStrList destination ++ ": "
    ++ e.distanceText ++ ", " ++ e.durationText

/-- The result-building loop of `fetch_distance_matrix`, lines 209-217:
for each origin (at running index `i`) read `rows[i]` and its `elements[0]`,
raising `IndexError` if absent, and emit the formatted string. -/
def collectResults (dest : List String) (rows : List ApiRow) :
    List String → Nat → Except PyErr (List String)
  | [], _ => .ok []
  | o :: os, i =>
    match rows.get? i with
    | none => .error .indexError
    | some row =>
      match row.elements.head? with
      | none => .error .indexError
      | some e =>
        match collectResults dest rows os (i + 1) with
        | .error err => .error err
        | .ok rest => .ok (formatResult o dest e :: rest)

/-- `fetch_distance_matrix`, lines 195-221: raises `ValueError` when origins or
destination are unset, queries the external API, and on `status == "OK"`
returns the list of per-origin formatted strings, else raises. -/
def GoogleDistanceMatrixClient.fetch_distance_matrix
    (c : GoogleDistanceMatrixClient) (api : DistanceApi) :
    Except PyErr (List String) :=
  if c.origins = [] ∨ c.destination = [] then
    .error (.valueError
      "Origins and destination must be set before fetching the distance matrix.")
  else
    if (api c.origins c.destination).status = "OK" then
      collectResults c.destination (api c.origins c.destination).rows c.origins 0
    else
      .error (.exception ("Error fetching distance matrix: "
        ++ (api c.origins c.destination).status))

/-- VRPSolver, `algorithm.py` lines 97-115: the constructor arguments and the
`self.data` dictionary (an association list with exactly the keys stored at
lines 108-112). -/
structure VRPSolver where
  distance_matrix : PyVal
  vehicle_capacities : PyVal
  data : List (String × PyVal)

/-- Dictionary lookup on `self.data` (Python `d[key]`; `none` means `KeyError`). -/
def dictGet : List (String × PyVal) → String → Option PyVal
  | [], _ => none
  | (k, v) :: rest, key => if k = key then some v else dictGet rest key

/-- `VRPSolver.__init__`, lines 98-115: stores the two arguments and builds
`self.data` with exactly the keys `distance_matrix`, `vehicle_capacities` and
`depot` (the comment at line 111 reads: depot is the destination location). -/
def VRPSolver.init (distance_matrix vehicle_capacities : PyVal) : VRPSolver :=
  { distance_matrix := distance_matrix
    vehicle_capacities := vehicle_capacities
    data := [("distance_matrix", distance_matrix),
             ("vehicle_capacities", vehicle_capacities),
             ("depot", PyVal.int 0)] }

/-- Python `len()` applied to a `PyVal` (raises `TypeError` on unsized values). -/
def pyLen : PyVal → Except PyErr Nat
  | .list xs => .ok xs.length
  | .str s => .ok s.length
  | _ => .error (.typeError "object has no len()")

/-- Observable point at which `solve` would hand control to the external
OR-Tools `RoutingIndexManager`, with the three arguments the code passes. -/
inductive SolveOutcome where
  | reachedRoutingSolver (numNodes : Nat) (numVehicles depot : PyVal)

/-- `VRPSolver.solve`, lines 117-124, embedded up to the external-solver call:
the first statement evaluates `len(self.data["distance_matrix"])`,
`self.data["num_vehicles"]` and `self.data["depot"]` left to right before
constructing the external `RoutingIndexManager`; a missing key raises
`KeyError`. -/
def VRPSolver.solve (vs : VRPSolver) : Except PyErr SolveOutcome :=
  match dictGet vs.data "distance_matrix" with
  | none => .error (.keyError "distance_matrix")
  | some dmv =>
    match pyLen dmv with
    | .error e => .error e
    | .ok numNodes =>
      match dictGet vs.data "num_vehicles" with
      | none => .error (.keyError "num_vehicles")
      | some nv =>
        match dictGet vs.data "depot" with
        | none => .error (.keyError "depot")
        | some dep => .ok (.reachedRoutingSolver numNodes nv dep)

/-- The Python 3 message for calling the two-parameter `VRPSolver.__init__`
(line 98) with three positional arguments, as `plan_routes` does at line 77. -/
def vrpArityMsg : String :=
  "VRPSolver.__init__() takes 3 positional arguments but 4 were given"

/-- The call `VRPSolver(dist_matrix, len(self.drivers), vehicle_capacities)` at
`algorithm.py` line 77: `__init__` (line 98) has only two parameters besides
`self`, so the three-argument call raises `TypeError` under Python calling
semantics, whatever the argument values. -/
def vrpSolverCall3 (dm numVehicles caps : PyVal) : Except PyErr VRPSolver :=
  .error (.typeError vrpArityMsg)

/-- Python value of a driver's `capacity` attribute, as collected by the list
comprehension at lines 72-74. -/
def capacityVal : Option Nat → PyVal
  | none => PyVal.noneV
  | some n => PyVal.int n

/-- Observable outcome of `plan_routes`: either an exception propagated to the
caller, or a normal return (with the message printed by the `except` block at
lines 79-80, if any). `fetchAttempted` records whether control reached the
distance-fetch stage. -/
inductive PlanOutcome where
  | raised (e : PyErr) (fetchAttempted : Bool)
  | returned (printedError : Option String) (fetchAttempted : Bool)
deriving DecidableEq, Repr

/-- True when the outcome is a normal return that printed a caught error after
entering the fetch/solve stage — the silently-swallowed-failure shape. -/
def PlanOutcome.isSwallowedError : PlanOutcome → Bool
  | .returned (some _) true => true
  | _ => false

/-- `RoutePlanner.plan_routes`, lines 43-80: validates destination and driver
presence (raising `ValueError` before any fetching), builds the client, adds
the drivers' addresses and destinations, then runs the `try` block: fetch the
matrix, build `vehicle_capacities`, and call
`VRPSolver(dist_matrix, len(self.drivers), vehicle_capacities)` — which raises
`TypeError` (two-parameter `__init__`); every exception of the block is caught
and printed, and the method returns normally. -/
def RoutePlanner.plan_routes (rp : RoutePlanner) (api : DistanceApi) :
    PlanOutcome :=
  if rp.destinations = [] then
    .raised (.valueError "At least one destination is required.") false
  else if rp.drivers = [] then
    .raised (.valueError "At least one driver is required.") false
  else
    match (rp.destinations.foldl (fun c d => c.set_destination d)
        (rp.drivers.foldl (fun c d => c.add_origin d.address)
          GoogleDistanceMatrixClient.init)).fetch_distance_matrix api with
    | .error e => .returned (some ("An error occurred: " ++ pyStr e)) true
    | .ok dist_matrix =>
      match vrpSolverCall3 (PyVal.list (dist_matrix.map PyVal.str))
          (PyVal.int rp.drivers.length)
          (PyVal.list (rp.drivers.map (fun d => capacityVal d.capacity))) with
      | .error e => .returned (some ("An error occurred: " ++ pyStr e)) true
      | .ok vrp =>
        match vrp.solve with
        | .error e => .returned (some ("An error occurred: " ++ pyStr e)) true
        | .ok _ => .returned none true

/-- Result of the `/api/distance/` endpoint body, `index.py` lines 42-51:
either the fetched list or the `error` dictionary built in the `except` arm. -/
inductive EndpointResult where
  | ok (results : List String)
  | err (msg : String)
deriving DecidableEq, Repr

/-- The `/api/distance/` endpoint, `index.py` lines 42-51: folds `add_origin`
over the request's origins and `set_destination` over its destination on the
module-level client state (line 7), fetches, and returns the result together
with the mutated client state. -/
def fetchDistanceEndpoint (st : GoogleDistanceMatrixClient)
    (origins : List String) (destination : String) (api : DistanceApi) :
    EndpointResult × GoogleDistanceMatrixClient :=
  let st2 := (origins.foldl (fun c o => c.add_origin o) st).set_destination
    destination
  match st2.fetch_distance_matrix api with
  | .ok results => (.ok results, st2)
  | .error e => (.err (pyStr e), st2)

/-- The list of result strings `fetch_distance_matrix` produces on success:
one formatted string per origin, in input order, reading row `i` and its first
element (defaults are irrelevant: success implies every lookup succeeded). -/
def expectedRows (dest : List String) (rows : List ApiRow) :
    List String → Nat → List String
  | [], _ => []
  | o :: os, i =>
    formatResult o dest (((rows.get? i).getD ⟨[]⟩).elements.head?.getD ⟨"", ""⟩)
      :: expectedRows dest rows os (i + 1)

/-- Stated from the spec words for claim C8 (a square matrix indexed in the
same order as the input addresses must have one row per address): the minimal
shape requirement on the adapter's output. -/
def spec_squareMatrixShape (addresses : List String)
    (result : List String) : Prop :=
  result.length = addresses.length

/-! Concrete inputs used by closed theorems and witnesses. -/

/-- A deterministic model of the external Distance Matrix service: always
status OK, one single-element row per requested origin. -/
def constApi : DistanceApi := fun origins _ =>
  { status := "OK"
    rows := origins.map (fun _ => ⟨[⟨"5 km", "10 mins"⟩]⟩) }

/-- A destination person (not driving). -/
def pDest : Person := ⟨"Dest", "DAddr", none, false, true⟩

/-- A driver with capacity 2. -/
def pDriverA : Person := ⟨"A", "AAddr", some 2, true, false⟩

/-- A driver with capacity 1. -/
def pDriverB : Person := ⟨"B", "BAddr", some 1, true, false⟩

/-- Passenger persons (pickup stops). -/
def pS1 : Person := ⟨"S1", "S1Addr", none, false, false⟩

/-- Second passenger. -/
def pS2 : Person := ⟨"S2", "S2Addr", none, false, false⟩

/-- Third passenger. -/
def pS3 : Person := ⟨"S3", "S3Addr", none, false, false⟩

/-- Planner with a destination, one driver of capacity 2 and two passengers. -/
def rpC1 : RoutePlanner := ⟨[pDest, pDriverA, pS1, pS2], "key"⟩

/-- Planner with a destination and one driver, no passengers. -/
def rpC3 : RoutePlanner := ⟨[pDest, pDriverB], "key"⟩

/-- Planner whose single driver has capacity 1 while three passengers need
pickup: total capacity 1 < 3 stops. -/
def rpC4 : RoutePlanner := ⟨[pDest, pDriverB, pS1, pS2, pS3], "key"⟩

/-! Helper lemmas. -/

/-- Once the two presence validations pass, `plan_routes` always returns
normally with a printed (swallowed) error after entering the fetch stage:
every path of the `try` block raises — the fetch either raises itself or
succeeds, and then the three-argument `VRPSolver` call raises `TypeError` —
and the `except` arm catches, prints and falls through. -/
theorem plan_routes_swallows (rp : RoutePlanner) (api : DistanceApi)
    (h1 : rp.destinations ≠ []) (h2 : rp.drivers ≠ []) :
    ∃ m, rp.plan_routes api = PlanOutcome.returned (some m) true := by
  unfold RoutePlanner.plan_routes
  rw [if_neg h1, if_neg h2]
  split
  · exact ⟨_, rfl⟩
  · exact ⟨_, rfl⟩

/-- The dictionary built by `VRPSolver.__init__` has no `num_vehicles` key. -/
theorem dictGet_init_num_vehicles (dm caps : PyVal) :
    dictGet (VRPSolver.init dm caps).data "num_vehicles" = none := rfl

/-- Case analysis of `VRPSolver.solve` on a constructor-built solver: `len` of
the stored matrix either raises, or the missing `num_vehicles` key raises. -/
theorem solve_init_eq (dm caps : PyVal) :
    (VRPSolver.init dm caps).solve =
      (match pyLen dm with
        | Except.error e => Except.error e
        | Except.ok _ => Except.error (PyErr.keyError "num_vehicles")) := by
  cases h : pyLen dm with
  | error e =>
    show (match pyLen dm with
      | Except.error e => Except.error e
      | Except.ok numNodes =>
        match dictGet (VRPSolver.init dm caps).data "num_vehicles" with
        | none => Except.error (PyErr.keyError "num_vehicles")
        | some nv =>
          match dictGet (VRPSolver.init dm caps).data "depot" with
          | none => Except.error (PyErr.keyError "depot")
          | some dep =>
            Except.ok (SolveOutcome.reachedRoutingSolver numNodes nv dep)) = _
    rw [h]
  | ok n =>
    show (match pyLen dm with
      | Except.error e => Except.error e
      | Except.ok numNodes =>
        match dictGet (VRPSolver.init dm caps).data "num_vehicles" with
        | none => Except.error (PyErr.keyError "num_vehicles")
        | some nv =>
          match dictGet (VRPSolver.init dm caps).data "depot" with
          | none => Except.error (PyErr.keyError "depot")
          | some dep =>
            Except.ok (SolveOutcome.reachedRoutingSolver numNodes nv dep)) = _
    rw [h]
    rfl

/-! Claim theorems. -/

/-- C9: for every VRPSolver instance created by its constructor whose stored
distance matrix is a sized value (so that `len()` succeeds), `solve` raises
`KeyError` for the key `num_vehicles` before reaching the underlying routing
solver — `__init__` stores only `distance_matrix`, `vehicle_capacities` and
`depot` in `self.data` — so no call to `solve` can ever produce or print a
solution. -/
theorem C9_solve_keyerror (dm caps : PyVal) (n : Nat)
    (h : pyLen dm = Except.ok n) :
    (VRPSolver.init dm caps).solve
      = Except.error (PyErr.keyError "num_vehicles") := by
  rw [solve_init_eq, h]

/-- Witness for C9 at a concrete 1×1 matrix and capacity list. -/
theorem C9_solve_keyerror_witness :
    pyLen (PyVal.list [PyVal.list [PyVal.int 0]]) = Except.ok 1
    ∧ (VRPSolver.init (PyVal.list [PyVal.list [PyVal.int 0]])
        (PyVal.list [PyVal.int 1])).solve
      = Except.error (PyErr.keyError "num_vehicles") :=
  ⟨rfl, C9_solve_keyerror _ _ 1 rfl⟩

/-- C6 (code_bug evidence): the improvement phase can never run, monotonically
or otherwise — for every constructor-built `VRPSolver`, `solve` never reaches
the external routing solver (where construction and improvement would happen):
it always raises before the `RoutingIndexManager` is built. -/
theorem C6_solver_never_reached (dm caps : PyVal) (r : SolveOutcome) :
    (VRPSolver.init dm caps).solve ≠ Except.ok r := by
  rw [solve_init_eq]
  cases h : pyLen dm with
  | error e => exact fun hc => Except.noConfusion hc
  | ok n => exact fun hc => Except.noConfusion hc

/-- C2 (code_bug evidence): the vehicle capacities are stored in `self.data`,
but the capacity-constrained solve is never reached: `solve` never returns
successfully, so no solved Solution exists whose routes could be measured
against the capacities. -/
theorem C2_capacity_never_enforced (dm caps : PyVal) :
    dictGet (VRPSolver.init dm caps).data "vehicle_capacities" = some caps
    ∧ ∀ r, (VRPSolver.init dm caps).solve ≠ Except.ok r := by
  refine ⟨rfl, fun r => ?_⟩
  rw [solve_init_eq]
  cases h : pyLen dm with
  | error e => exact fun hc => Except.noConfusion hc
  | ok n => exact fun hc => Except.noConfusion hc

/-- C5 (code_bug evidence): every constructor-built problem stores the single
shared depot node 0 — the code's comment calls it the destination location —
as the start/end node for all vehicles, so no per-vehicle origin start exists;
and `solve` never completes anyway. -/
theorem C5_shared_depot (dm caps : PyVal) :
    dictGet (VRPSolver.init dm caps).data "depot" = some (PyVal.int 0)
    ∧ ∀ r, (VRPSolver.init dm caps).solve ≠ Except.ok r := by
  refine ⟨rfl, fun r => ?_⟩
  rw [solve_init_eq]
  cases h : pyLen dm with
  | error e => exact fun hc => Except.noConfusion hc
  | ok n => exact fun hc => Except.noConfusion hc

/-- C1 (code_bug evidence): no solved Solution whose stop coverage could be
checked is ever produced — on a concrete RoutePlanner-built problem (one
destination, one driver, two passenger stops) `plan_routes` swallows the
`TypeError` raised by the three-argument `VRPSolver` call and returns
normally, and a directly constructed `VRPSolver` fails with `KeyError` on
`num_vehicles` before any route is built. -/
theorem C1_no_solved_solution :
    rpC1.plan_routes constApi
      = PlanOutcome.returned (some ("An error occurred: " ++ vrpArityMsg)) true
    ∧ (VRPSolver.init (PyVal.list [PyVal.list [PyVal.int 0, PyVal.int 1],
          PyVal.list [PyVal.int 1, PyVal.int 0]])
        (PyVal.list [PyVal.int 2])).solve
      = Except.error (PyErr.keyError "num_vehicles") :=
  ⟨rfl, rfl⟩

/-- C3 (code_bug evidence): once the two presence validations pass, every
input makes `plan_routes` catch the failure of its `try` block (the fetch
error or the `VRPSolver` arity `TypeError`), print it, and return normally —
the error is silently swallowed, never propagated to the caller. -/
theorem C3_plan_routes_swallows_errors (rp : RoutePlanner) (api : DistanceApi)
    (h1 : rp.destinations ≠ []) (h2 : rp.drivers ≠ []) :
    (rp.plan_routes api).isSwallowedError = true := by
  obtain ⟨m, hm⟩ := plan_routes_swallows rp api h1 h2
  rw [hm]
  rfl

/-- Witness for C3 on a concrete planner with a destination and a driver. -/
theorem C3_plan_routes_swallows_errors_witness :
    rpC3.destinations ≠ [] ∧ rpC3.drivers ≠ []
    ∧ (rpC3.plan_routes constApi).isSwallowedError = true :=
  ⟨by decide, by decide,
    C3_plan_routes_swallows_errors rpC3 constApi (by decide) (by decide)⟩

/-- C4 counterexample: on a planner whose single driver has capacity 1 while
three stops need pickup (`sum(capacities) = 1 < 3`), `plan_routes` raises no
`InfeasibleCapacity` (or any) error and does not stop before the distance
fetch: it fetches, then returns normally after printing the swallowed
`TypeError` — no capacity-feasibility validation exists in the code. -/
theorem C4_counterexample :
    rpC4.capacitySum = 1 ∧ rpC4.passengers.length = 3
    ∧ rpC4.plan_routes constApi
      = PlanOutcome.returned (some ("An error occurred: " ++ vrpArityMsg))
          true :=
  ⟨rfl, rfl, rfl⟩

/-- C4 amended: when the sum of driver capacities is strictly less than the
number of passenger stops, `plan_routes` does not fail with any capacity
error before algorithmic work — it proceeds to the distance fetch and returns
normally with the internal error printed; no Solution is produced (and none
ever is). -/
theorem C4_no_capacity_validation (rp : RoutePlanner) (api : DistanceApi)
    (h1 : rp.destinations ≠ []) (h2 : rp.drivers ≠ [])
    (h3 : rp.capacitySum < rp.passengers.length) :
    (rp.plan_routes api).isSwallowedError = true := by
  obtain ⟨m, hm⟩ := plan_routes_swallows rp api h1 h2
  rw [hm]
  rfl

/-- Witness for the amended C4 at the concrete infeasible planner. -/
theorem C4_no_capacity_validation_witness :
    rpC4.destinations ≠ [] ∧ rpC4.drivers ≠ []
    ∧ rpC4.capacitySum < rpC4.passengers.length
    ∧ (rpC4.plan_routes constApi).isSwallowedError = true :=
  ⟨by decide, by decide, by decide,
    C4_no_capacity_validation rpC4 constApi (by decide) (by decide)
      (by decide)⟩

/-- C7 counterexample: on a planner with no persons at all, no vehicle is
present, yet `plan_routes` raises the missing-destination error, not the
missing-vehicle one — the destination check precedes the driver check, so
"fails with MissingVehicle exactly when no vehicle is present" is false as
stated. -/
theorem C7_counterexample :
    (⟨[], "key"⟩ : RoutePlanner).drivers = []
    ∧ (⟨[], "key"⟩ : RoutePlanner).plan_routes constApi
      = PlanOutcome.raised
          (PyErr.valueError "At least one destination is required.") false
    ∧ (⟨[], "key"⟩ : RoutePlanner).plan_routes constApi
      ≠ PlanOutcome.raised
          (PyErr.valueError "At least one driver is required.") false := by
  refine ⟨rfl, rfl, by decide⟩

/-- C7 amended: `plan_routes` raises the missing-destination `ValueError`
exactly when no destination person is present, and the missing-driver
`ValueError` exactly when a destination is present but no driver is (the
destination check takes precedence), in both cases before any distance
fetching (the `false` flag) — these are the code's error kinds for the spec's
`MissingDestination` and `MissingVehicle`. -/
theorem C7_validation_errors (rp : RoutePlanner) (api : DistanceApi) :
    (rp.plan_routes api
        = PlanOutcome.raised
            (PyErr.valueError "At least one destination is required.") false
      ↔ rp.destinations = [])
    ∧ (rp.plan_routes api
        = PlanOutcome.raised
            (PyErr.valueError "At least one driver is required.") false
      ↔ (rp.destinations ≠ [] ∧ rp.drivers = [])) := by
  by_cases h1 : rp.destinations = []
  · have hp : rp.plan_routes api
        = PlanOutcome.raised
            (PyErr.valueError "At least one destination is required.") false := by
      unfold RoutePlanner.plan_routes
      rw [if_pos h1]
    refine ⟨⟨fun _ => h1, fun _ => hp⟩, ⟨fun he => ?_, fun hx => absurd h1 hx.1⟩⟩
    rw [hp] at he
    injection he with h3 h4
    injection h3 with h5
    exact absurd h5 (by decide)
  · by_cases h2 : rp.drivers = []
    · have hp : rp.plan_routes api
          = PlanOutcome.raised
              (PyErr.valueError "At least one driver is required.") false := by
        unfold RoutePlanner.plan_routes
        rw [if_neg h1, if_pos h2]
      refine ⟨⟨fun he => ?_, fun hx => absurd hx h1⟩,
        ⟨fun _ => ⟨h1, h2⟩, fun _ => hp⟩⟩
      rw [hp] at he
      injection he with h3 h4
      injection h3 with h5
      exact absurd h5 (by decide)
    · obtain ⟨m, hm⟩ := plan_routes_swallows rp api h1 h2
      refine ⟨⟨fun he => ?_, fun hx => absurd hx h1⟩,
        ⟨fun he => ?_, fun hx => absurd hx.2 h2⟩⟩
      · rw [hm] at he
        exact PlanOutcome.noConfusion he
      · rw [hm] at he
        exact PlanOutcome.noConfusion he

/-- A successful `collectResults` run yields exactly the per-origin formatted
strings, in input order, starting at row index `i`. -/
theorem collectResults_ok_eq (dest : List String) (rows : List ApiRow) :
    ∀ (origins : List String) (i : Nat) (rs : List String),
      collectResults dest rows origins i = Except.ok rs →
      rs = expectedRows dest rows origins i := by
  intro origins
  induction origins with
  | nil =>
    intro i rs h
    injection h with h1
    subst h1
    rfl
  | cons o os ih =>
    intro i rs h
    cases hr : rows.get? i with
    | none =>
      simp only [collectResults, hr] at h
      exact Except.noConfusion h
    | some row =>
      cases he : row.elements.head? with
      | none =>
        simp only [collectResults, hr, he] at h
        exact Except.noConfusion h
      | some e =>
        cases hc : collectResults dest rows os (i + 1) with
        | error err =>
          simp only [collectResults, hr, he, hc] at h
          exact Except.noConfusion h
        | ok rest =>
          simp only [collectResults, hr, he, hc] at h
          injection h with h1
          subst h1
          have h2 := ih (i + 1) rest hc
          simp only [expectedRows, hr, Option.getD_some, he, h2]

/-- The expected result list has one entry per origin. -/
theorem expectedRows_length (dest : List String) (rows : List ApiRow) :
    ∀ (origins : List String) (i : Nat),
      (expectedRows dest rows origins i).length = origins.length := by
  intro origins
  induction origins with
  | nil => intro i; rfl
  | cons o os ih => intro i; simp [expectedRows, ih]

/-- C8 counterexample: with the single origin `A` and destination `D`
(two distinct addresses) and a well-formed API response, the adapter returns a
one-element list of a human-readable sentence — not a square matrix over the
two addresses (one row per address) and not numeric. -/
theorem C8_counterexample :
    ((⟨["A"], ["D"]⟩ : GoogleDistanceMatrixClient).fetch_distance_matrix
        constApi
      = Except.ok ["From A to [\x27D\x27]: 5 km, 10 mins"])
    ∧ ¬ spec_squareMatrixShape ["A", "D"]
        ["From A to [\x27D\x27]: 5 km, 10 mins"] := by
  refine ⟨rfl, ?_⟩
  intro h
  exact absurd h (by unfold spec_squareMatrixShape; decide)

/-- C8 amended: on success the adapter returns one formatted description
string per origin, in the same order as the origins, each built from that
origin's row and the single first element (origin-to-destination only); the
output has `origins.length` entries, not a square matrix over all addresses. -/
theorem C8_row_per_origin (c : GoogleDistanceMatrixClient) (api : DistanceApi)
    (rs : List String)
    (h : c.fetch_distance_matrix api = Except.ok rs) :
    rs = expectedRows c.destination (api c.origins c.destination).rows
          c.origins 0
    ∧ rs.length = c.origins.length := by
  unfold GoogleDistanceMatrixClient.fetch_distance_matrix at h
  by_cases h0 : c.origins = [] ∨ c.destination = []
  · rw [if_pos h0] at h
    exact Except.noConfusion h
  · rw [if_neg h0] at h
    by_cases hs : (api c.origins c.destination).status = "OK"
    · rw [if_pos hs] at h
      have h1 := collectResults_ok_eq c.destination
        (api c.origins c.destination).rows c.origins 0 rs h
      exact ⟨h1, by rw [h1, expectedRows_length]⟩
    · rw [if_neg hs] at h
      exact Except.noConfusion h

/-- Witness for the amended C8 at a concrete one-origin request. -/
theorem C8_row_per_origin_witness :
    ((⟨["A"], ["D"]⟩ : GoogleDistanceMatrixClient).fetch_distance_matrix
        constApi
      = Except.ok ["From A to [\x27D\x27]: 5 km, 10 mins"])
    ∧ ((["From A to [\x27D\x27]: 5 km, 10 mins"] : List String)
        = expectedRows ["D"] (constApi ["A"] ["D"]).rows ["A"] 0
      ∧ (["From A to [\x27D\x27]: 5 km, 10 mins"] : List String).length
        = (["A"] : List String).length) :=
  ⟨rfl, C8_row_per_origin ⟨["A"], ["D"]⟩ constApi _ rfl⟩

/-- C10: the `/api/distance/` endpoint is not a pure function of its request:
starting from the module-level client's initial state, two calls with the
identical arguments (origins `["A"]`, destination `D`) leave the client
mutated (origins and destination accumulate, never reset) and return
different results — the second call operates on `["A", "A"]` and
`["D", "D"]`. -/
theorem C10_endpoint_not_pure :
    (fetchDistanceEndpoint GoogleDistanceMatrixClient.init ["A"] "D"
        constApi).2
      ≠ GoogleDistanceMatrixClient.init
    ∧ (fetchDistanceEndpoint
        (fetchDistanceEndpoint GoogleDistanceMatrixClient.init ["A"] "D"
          constApi).2 ["A"] "D" constApi).1
      ≠ (fetchDistanceEndpoint GoogleDistanceMatrixClient.init ["A"] "D"
          constApi).1
    ∧ (fetchDistanceEndpoint
        (fetchDistanceEndpoint GoogleDistanceMatrixClient.init ["A"] "D"
          constApi).2 ["A"] "D" constApi).2
      = ⟨["A", "A"], ["D", "D"]⟩ := by
  refine ⟨by decide, by decide, rfl⟩

end MapRouter
